import Mathlib

/-!
Shallow embedding of the data-normalization and reconciliation layer of the
school administration portal (src/App.tsx, src/types.ts).

JavaScript numbers are modelled as rationals (Rat); a raw document field that
may be missing or of the wrong runtime type is modelled as an Option, where
none covers both absence and a value rejected by the source's typeof guard.
Platform builtins (Date parsing, Date.now, toISOString, the id generator, and
String.prototype.localeCompare) are supplied through an explicit environment
record so their behaviour is a parameter of every definition that calls them.
Fallible code paths are modelled with Except: new Date(s).toISOString() throws
a RangeError when s does not parse as a date, so the normalizers return
Except JsError instead of silently totalizing that branch.
-/

namespace SchoolPortal

/-- Math.round for JS numbers: round half toward positive infinity. -/
def jsRound (x : Rat) : Int := ⌊x + 1/2⌋

/-- Assignment status enum from src/types.ts. -/
inductive AStatus where
  | pending
  | submitted
deriving DecidableEq, Repr

/-- Message sender tag from src/types.ts (always the admin). -/
inductive Sender where
  | admin
deriving DecidableEq, Repr

/-- Assignment record from src/types.ts. -/
structure Assignment where
  id : String
  title : String
  description : String
  dueDate : String
  status : AStatus
  resourceLink : Option String
  submissionUrl : Option String
  submissionName : Option String
  submittedAt : Option String
deriving DecidableEq, Repr

/-- StudentMessage record from src/types.ts. -/
structure StudentMessage where
  id : String
  title : String
  body : String
  createdAt : String
  sender : Sender
deriving DecidableEq, Repr

/-- Student record from src/types.ts. -/
structure Student where
  name : String
  regNo : String
  attendedClasses : Rat
  totalClasses : Rat
  pendingAssignments : Rat
  isBlocked : Bool
  assignments : List Assignment
  messages : List StudentMessage
deriving DecidableEq, Repr

/-- Page enum from src/types.ts. -/
inductive Page where
  | home
  | studentLogin
  | studentDashboard
  | adminLogin
  | adminDashboard
deriving DecidableEq, Repr

/-- Session user from src/types.ts: an admin marker or a student record. -/
inductive User where
  | admin
  | student (s : Student)
deriving DecidableEq, Repr

/-- A loosely-typed raw assignment object (Partial of Assignment); a field is
some v exactly when it is present with the runtime type the source checks for. -/
structure RawAssignment where
  id : Option String
  title : Option String
  description : Option String
  dueDate : Option String
  status : Option String
  resourceLink : Option String
  submissionUrl : Option String
  submissionName : Option String
  submittedAt : Option String
deriving DecidableEq, Repr

/-- A loosely-typed raw message object (Partial of StudentMessage); the stored
sender field is ignored by the normalizer, which always writes the admin tag. -/
structure RawMessage where
  id : Option String
  title : Option String
  body : Option String
  createdAt : Option String
deriving DecidableEq, Repr

/-- RawStudentDoc from src/App.tsx: Partial of Student plus the legacy
attendance percentage field. -/
structure RawStudentDoc where
  name : Option String
  regNo : Option String
  attendedClasses : Option Rat
  totalClasses : Option Rat
  attendance : Option Rat
  pendingAssignments : Option Rat
  isBlocked : Option Bool
  assignments : Option (List RawAssignment)
  messages : Option (List RawMessage)
deriving DecidableEq, Repr

/-- The one JavaScript exception the embedded code can raise:
toISOString() on an Invalid Date throws a RangeError. -/
inductive JsError where
  | rangeError
deriving DecidableEq, Repr

/-- Environment of platform builtins used by the source. parseDate models
new Date(s): some epoch-milliseconds when the string parses, none when the
result is an Invalid Date. isoOfMillis models toISOString on a valid date.
freshAssignmentId and freshMessageId model makeAssignmentId and makeMessageId,
whose output (crypto.randomUUID or the timestamp-random fallback) is
nondeterministic and therefore abstracted. localeCompare models
String.prototype.localeCompare as a three-way comparison. -/
structure JsEnv where
  parseDate : String → Option Int
  nowMillis : Int
  isoOfMillis : Int → String
  freshAssignmentId : String
  freshMessageId : String
  localeCompare : String → String → Ordering

/-- TOTAL_CLASSES constant from src/App.tsx. -/
def TOTAL_CLASSES : Rat := 10

/-- String.prototype.trim: strip whitespace from both ends. -/
def jsTrim (s : String) : String :=
  ⟨((s.data.dropWhile Char.isWhitespace).reverse.dropWhile Char.isWhitespace).reverse⟩

/-- String.prototype.toLowerCase, restricted to simple per-character lowering. -/
def jsToLower (s : String) : String :=
  ⟨s.data.map Char.toLower⟩

/-- new Date(s).toISOString(): re-serializes a parsed date, but throws a
RangeError when the string does not parse as a valid date. -/
def jsToISOString (env : JsEnv) (s : String) : Except JsError String :=
  match env.parseDate s with
  | some t => Except.ok (env.isoOfMillis t)
  | none => Except.error JsError.rangeError

/-- The dueDate and createdAt pattern shared by both normalizers: a present,
non-empty (truthy) string is parsed and re-serialized, anything else falls
back to the current time. -/
def isoStringOrNow (env : JsEnv) (v : Option String) : Except JsError String :=
  match v with
  | some s => if s ≠ "" then jsToISOString env s else Except.ok (env.isoOfMillis env.nowMillis)
  | none => Except.ok (env.isoOfMillis env.nowMillis)

/-- normalizeAssignment from src/App.tsx. -/
def normalizeAssignment (env : JsEnv) (assignment : RawAssignment) : Except JsError Assignment :=
  let normalizedId :=
    match assignment.id with
    | some s => if jsTrim s ≠ "" then jsTrim s else env.freshAssignmentId
    | none => env.freshAssignmentId
  match isoStringOrNow env assignment.dueDate with
  | Except.error e => Except.error e
  | Except.ok dueDate =>
    Except.ok {
      id := normalizedId
      title := assignment.title.getD "Untitled assignment"
      description := assignment.description.getD "No description provided."
      dueDate := dueDate
      status := if assignment.status = some "submitted" then AStatus.submitted else AStatus.pending
      resourceLink := assignment.resourceLink
      submissionUrl := assignment.submissionUrl
      submissionName := assignment.submissionName
      submittedAt := assignment.submittedAt }

/-- normalizeMessage from src/App.tsx. -/
def normalizeMessage (env : JsEnv) (message : RawMessage) : Except JsError StudentMessage :=
  let normalizedId :=
    match message.id with
    | some s => if jsTrim s ≠ "" then jsTrim s else env.freshMessageId
    | none => env.freshMessageId
  match isoStringOrNow env message.createdAt with
  | Except.error e => Except.error e
  | Except.ok createdAt =>
    Except.ok {
      id := normalizedId
      title :=
        match message.title with
        | some s => if jsTrim s ≠ "" then jsTrim s else "Message from admin"
        | none => "Message from admin"
      body :=
        match message.body with
        | some s => if jsTrim s ≠ "" then jsTrim s else "No message content provided."
        | none => "No message content provided."
      createdAt := createdAt
      sender := Sender.admin }

/-- getPendingAssignmentsCount from src/App.tsx. -/
def getPendingAssignmentsCount (assignments : List Assignment) (fallback : Rat) : Rat :=
  if assignments.length = 0 then fallback
  else ((assignments.filter fun a => decide (a.status ≠ AStatus.submitted)).length : Rat)

/-- The totalClasses local of normalizeStudentData: the stored number when
positive, else the TOTAL_CLASSES constant. -/
def normTotalClasses (data : RawStudentDoc) : Rat :=
  match data.totalClasses with
  | some t => if 0 < t then t else TOTAL_CLASSES
  | none => TOTAL_CLASSES

/-- The attendedClasses local of normalizeStudentData: the explicit new field,
else the value derived from the legacy percentage, else 0, clamped by
Math.min and Math.max into the range up to totalClasses. -/
def normAttendedClasses (data : RawStudentDoc) : Rat :=
  let totalClasses := normTotalClasses data
  let attendedFromNewField := data.attendedClasses
  let attendedFromLegacyPercentage :=
    data.attendance.map fun p => ((jsRound (p / 100 * totalClasses) : Int) : Rat)
  min (max (attendedFromNewField.getD (attendedFromLegacyPercentage.getD 0)) 0) totalClasses

/-- normalizeStudentData from src/App.tsx. The assignments list is normalized
before the messages list, so an exception raised there propagates first. -/
def normalizeStudentData (env : JsEnv) (data : RawStudentDoc) (fallbackRegNo : String) :
    Except JsError Student :=
  match (data.assignments.getD []).mapM (normalizeAssignment env) with
  | Except.error e => Except.error e
  | Except.ok assignments =>
    match (data.messages.getD []).mapM (normalizeMessage env) with
    | Except.error e => Except.error e
    | Except.ok messages =>
      Except.ok {
        name := data.name.getD ""
        regNo := data.regNo.getD fallbackRegNo
        attendedClasses := normAttendedClasses data
        totalClasses := normTotalClasses data
        pendingAssignments :=
          match data.pendingAssignments with
          | some n => n
          | none => getPendingAssignmentsCount assignments 0
        isBlocked := data.isBlocked.getD false
        assignments := assignments
        messages := messages }

/-- getAttendancePercentage from src/App.tsx. -/
def getAttendancePercentage (student : Student) : Rat :=
  if student.totalClasses = 0 then 0
  else (jsRound (student.attendedClasses / student.totalClasses * 100) : Rat)

/-- The outcome of handleStudentLogin: the string returned to the caller
(none models the null success result), the setCurrentUser call, the setPage
call, and the setDoc write of a newly registered student. Remote reads and
writes themselves are modelled as succeeding; the catch branch that maps a
rejected promise to a generic error string is outside the claims checked. -/
structure LoginOutcome where
  result : Option String
  sessionUser : Option User
  nextPage : Option Page
  createdDoc : Option Student
deriving DecidableEq, Repr

/-- handleStudentLogin from src/App.tsx. lookup models the getDoc point read
of the students collection keyed by the trimmed registration number; it is
the only remote input the function branches on. An exception raised while
normalizing the stored document is caught by the surrounding try and turned
into the generic login error, with no session or page change. -/
def handleStudentLogin (env : JsEnv) (lookup : String → Option RawStudentDoc)
    (name regNo : String) : LoginOutcome :=
  let trimmedName := jsTrim name
  let trimmedRegNo := jsTrim regNo
  if trimmedName = "" ∨ trimmedRegNo = "" then
    { result := some "Please fill in both fields."
      sessionUser := none, nextPage := none, createdDoc := none }
  else
    match lookup trimmedRegNo with
    | some raw =>
      match normalizeStudentData env raw trimmedRegNo with
      | Except.error _ =>
        { result := some "Unexpected error during login. Please try again."
          sessionUser := none, nextPage := none, createdDoc := none }
      | Except.ok existingStudent =>
        if existingStudent.isBlocked then
          { result := some "Your account is blocked. Please contact administration."
            sessionUser := none, nextPage := none, createdDoc := none }
        else if jsToLower existingStudent.name ≠ jsToLower trimmedName then
          { result := some "Registration number found, but name does not match."
            sessionUser := none, nextPage := none, createdDoc := none }
        else
          { result := none
            sessionUser := some (User.student existingStudent)
            nextPage := some Page.studentDashboard
            createdDoc := none }
    | none =>
      let newStudent : Student :=
        { name := trimmedName, regNo := trimmedRegNo
          attendedClasses := 0, totalClasses := TOTAL_CLASSES
          pendingAssignments := 0, isBlocked := false
          assignments := [], messages := [] }
      { result := none
        sessionUser := some (User.student newStudent)
        nextPage := some Page.studentDashboard
        createdDoc := some newStudent }

/-- The chosen file of an assignment submission: name and size in bytes. -/
structure UploadFile where
  name : String
  size : Nat
deriving DecidableEq, Repr

/-- The outcome of handleSubmitAssignmentUpload: the inline error or success
message, whether uploadBytes was reached, and the updateDoc payload written
to the student document (the replaced assignments list together with the
recomputed pendingAssignments counter). -/
structure UploadOutcome where
  uploadError : Option String
  uploadSuccess : Option String
  storageUploaded : Bool
  dbUpdate : Option (List Assignment × Rat)
deriving DecidableEq, Repr

/-- The ownership guard of handleSubmitAssignmentUpload: the session must be
a student whose regNo equals the modal student's regNo. -/
def isOwnerStudent (currentUser : Option User) (student : Student) : Bool :=
  match currentUser with
  | some (User.student cu) => decide (cu.regNo = student.regNo)
  | _ => false

/-- handleSubmitAssignmentUpload from src/App.tsx, with the remote upload and
update modelled as succeeding (downloadUrl is the value getDownloadURL
resolves to); every guard before the first remote call is modelled exactly. -/
def handleSubmitAssignmentUpload (env : JsEnv)
    (assignmentModalData : Option (Student × Assignment))
    (assignmentUploadFile : Option UploadFile)
    (currentUser : Option User) (downloadUrl : String) : UploadOutcome :=
  match assignmentModalData with
  | none =>
    { uploadError := some "No assignment selected. Please reopen the task and try again."
      uploadSuccess := none, storageUploaded := false, dbUpdate := none }
  | some (student, assignment) =>
    match assignmentUploadFile with
    | none =>
      { uploadError := some "Please choose a file before uploading."
        uploadSuccess := none, storageUploaded := false, dbUpdate := none }
    | some file =>
      if ¬ isOwnerStudent currentUser student then
        { uploadError := some "Only the assigned student can submit this assignment."
          uploadSuccess := none, storageUploaded := false, dbUpdate := none }
      else if 10 * 1024 * 1024 < file.size then
        { uploadError := some "File is too large. Please keep submissions under 10 MB."
          uploadSuccess := none, storageUploaded := false, dbUpdate := none }
      else
        let updatedAssignments := student.assignments.map fun item =>
          if item.id = assignment.id then
            { item with
                status := AStatus.submitted
                submissionUrl := some downloadUrl
                submissionName := some file.name
                submittedAt := some (env.isoOfMillis env.nowMillis) }
          else item
        { uploadError := none
          uploadSuccess := some "Upload complete! Your submission is now tracked."
          storageUploaded := true
          dbUpdate := some (updatedAssignments, getPendingAssignmentsCount updatedAssignments 0) }

/-- The per-student writes issued by handleSubmitAttendance: for each entry
of the attendance-selection record, a marked student found in the roster and
still below totalClasses gets attendedClasses clamped to
min(attendedClasses + 1, totalClasses); every other entry issues no write. -/
def attendanceWrites (selections : List (String × Bool)) (students : List Student) :
    List (String × Rat) :=
  selections.filterMap fun sel =>
    if sel.2 = false then none
    else
      match students.find? (fun s => decide (s.regNo = sel.1)) with
      | none => none
      | some student =>
        if student.totalClasses ≤ student.attendedClasses then none
        else some (sel.1, min (student.attendedClasses + 1) student.totalClasses)

/-- The hasChanges comparison of the reconciliation effects: the observable
fields compared with strict inequality, with the assignments and messages
lists compared through JSON.stringify, which on these canonical records
agrees with structural equality. -/
def hasChanges (updated sel : Student) : Bool :=
  decide (updated.attendedClasses ≠ sel.attendedClasses) ||
  decide (updated.totalClasses ≠ sel.totalClasses) ||
  decide (updated.pendingAssignments ≠ sel.pendingAssignments) ||
  decide (updated.isBlocked ≠ sel.isBlocked) ||
  decide (updated.name ≠ sel.name) ||
  decide (updated.assignments ≠ sel.assignments) ||
  decide (updated.messages ≠ sel.messages)

/-- The selectedStudent reconciliation effect of src/App.tsx: after a roster
publication, a held selection is cleared when its regNo vanished from the
roster and replaced by the fresh record when any observable field changed. -/
def reconcileSelectedStudent (students : List Student) (selectedStudent : Option Student) :
    Option Student :=
  match selectedStudent with
  | none => none
  | some sel =>
    match students.find? (fun s => decide (s.regNo = sel.regNo)) with
    | none => none
    | some updatedStudent =>
      if hasChanges updatedStudent sel then some updatedStudent else some sel

/-- The currentUser reconciliation effect of src/App.tsx: a logged-in student
session is logged out (and the page routed to the student login) when its
regNo vanished from the roster, and refreshed from the roster record when any
observable field changed; admin sessions and logged-out states are untouched. -/
def reconcileCurrentUser (students : List Student) (currentUser : Option User) (page : Page) :
    Option User × Page :=
  match currentUser with
  | some (User.student cu) =>
    match students.find? (fun s => decide (s.regNo = cu.regNo)) with
    | none => (none, Page.studentLogin)
    | some updated =>
      if hasChanges updated cu then (some (User.student updated), page)
      else (currentUser, page)
  | _ => (currentUser, page)

/-- One document of an inbound snapshot event: the document id (the
registration number the document is keyed by) and its raw data. -/
structure SnapshotDoc where
  id : String
  data : RawStudentDoc
deriving Repr

/-- Modelled from the spec: String.prototype.localeCompare, described at its
interface boundary as a case-sensitive lexicographic three-way comparison. -/
def lexCompare (a b : String) : Ordering :=
  if a < b then Ordering.lt else if a = b then Ordering.eq else Ordering.gt

/-- The onSnapshot subscription handler of src/App.tsx: map every snapshot
document through normalizeStudentData, sort by regNo with the localeCompare
comparator (an ascending comparison sort, modelled by the stable mergeSort),
and publish the resulting roster with a single setStudents call. An exception
raised by normalization aborts the handler before setStudents, leaving the
previously published roster in place. -/
def publishRoster (env : JsEnv) (docs : List SnapshotDoc) : Except JsError (List Student) :=
  match docs.mapM (fun d => normalizeStudentData env d.data d.id) with
  | Except.error e => Except.error e
  | Except.ok fetchedStudents =>
    Except.ok (fetchedStudents.mergeSort fun a b => env.localeCompare a.regNo b.regNo != Ordering.gt)

/-- The sequence of rosters published over a run of the subscription: each
snapshot event produces its own complete roster, independently of any state
held before it (events whose processing raised are skipped wholesale). -/
def publishedRosters (env : JsEnv) (events : List (List SnapshotDoc)) : List (List Student) :=
  events.filterMap fun docs => (publishRoster env docs).toOption

/-! Concrete sample environment and data used to exercise the definitions. -/

/-- A concrete environment: one parseable timestamp, a fixed clock, a
printable serialization, fixed generated ids, and the lexicographic
comparator. -/
def demoEnv : JsEnv :=
  { parseDate := fun s => if s = "2025-03-04T00:00:00.000Z" then some 1741046400000 else none
    nowMillis := 1700000000000
    isoOfMillis := fun t => "iso:" ++ toString t
    freshAssignmentId := "assignment-fresh"
    freshMessageId := "message-fresh"
    localeCompare := lexCompare }

/-- A raw assignment with a parseable due date and pending status. -/
def rawEssay : RawAssignment :=
  { id := some "a1", title := some "Essay", description := some "Write an essay."
    dueDate := some "2025-03-04T00:00:00.000Z", status := some "pending"
    resourceLink := none, submissionUrl := none, submissionName := none, submittedAt := none }

/-- The canonical form of rawEssay under demoEnv. -/
def essayAssignment : Assignment :=
  { id := "a1", title := "Essay", description := "Write an essay."
    dueDate := "iso:1741046400000", status := AStatus.pending
    resourceLink := none, submissionUrl := none, submissionName := none, submittedAt := none }

/-- A raw student document holding both a numeric stored pendingAssignments
counter and a non-empty assignments list with exactly one pending entry. -/
def legacyCounterDoc : RawStudentDoc :=
  { name := some "Asha", regNo := some "CS001", attendedClasses := some 3
    totalClasses := some 10, attendance := none, pendingAssignments := some 5
    isBlocked := some false, assignments := some [rawEssay], messages := none }

/-- The canonical form of legacyCounterDoc under demoEnv. -/
def legacyCounterStudent : Student :=
  { name := "Asha", regNo := "CS001", attendedClasses := 3, totalClasses := 10
    pendingAssignments := 5, isBlocked := false
    assignments := [essayAssignment], messages := [] }

/-- legacyCounterDoc with the stored counter removed, so the normalizer
derives the pending count from the assignments list. -/
def derivedCountDoc : RawStudentDoc :=
  { legacyCounterDoc with pendingAssignments := none }

/-- The canonical form of derivedCountDoc under demoEnv. -/
def derivedCountStudent : Student :=
  { legacyCounterStudent with pendingAssignments := 1 }

/-- A raw assignment whose dueDate is a non-empty string that does not parse
as a date. -/
def invalidDueDateAssignment : RawAssignment :=
  { id := some "a2", title := none, description := none, dueDate := some "not-a-date"
    status := none, resourceLink := none, submissionUrl := none, submissionName := none
    submittedAt := none }

/-- A raw student document missing attendedClasses but holding a legacy
attendance percentage. -/
def legacyPercentDoc : RawStudentDoc :=
  { name := some "Chandra", regNo := some "CS003", attendedClasses := none
    totalClasses := some 10, attendance := some 85, pendingAssignments := some 0
    isBlocked := some false, assignments := none, messages := none }

/-- The canonical form of legacyPercentDoc: round(85 / 100 * 10) = 9. -/
def legacyPercentStudent : Student :=
  { name := "Chandra", regNo := "CS003", attendedClasses := 9, totalClasses := 10
    pendingAssignments := 0, isBlocked := false, assignments := [], messages := [] }

/-- A legacy-shaped raw document: only the attendance percentage is stored,
with no attendedClasses and no totalClasses at all. -/
def legacyOnlyDoc : RawStudentDoc :=
  { name := some "Dev", regNo := some "CS004", attendedClasses := none
    totalClasses := none, attendance := some 85, pendingAssignments := some 0
    isBlocked := some false, assignments := none, messages := none }

/-- The canonical form of legacyOnlyDoc: totalClasses defaults to 10 and the
percentage is applied to the defaulted count, round(85 / 100 * 10) = 9. -/
def legacyOnlyStudent : Student :=
  { name := "Dev", regNo := "CS004", attendedClasses := 9, totalClasses := 10
    pendingAssignments := 0, isBlocked := false, assignments := [], messages := [] }

/-- A malformed raw document: attendedClasses far above the class count and a
non-positive stored totalClasses. -/
def malformedDoc : RawStudentDoc :=
  { name := none, regNo := none, attendedClasses := some 99
    totalClasses := some (-5), attendance := none, pendingAssignments := none
    isBlocked := none, assignments := none, messages := none }

/-- The canonical form of malformedDoc: totalClasses defaulted to 10 and
attendedClasses clamped down to it. -/
def malformedStudent : Student :=
  { name := "", regNo := "CS000", attendedClasses := 10, totalClasses := 10
    pendingAssignments := 0, isBlocked := false, assignments := [], messages := [] }

/-- A stored, unblocked student document named Asha. -/
def ashaDoc : RawStudentDoc :=
  { name := some "Asha", regNo := some "CS001", attendedClasses := some 0
    totalClasses := some 10, attendance := none, pendingAssignments := some 0
    isBlocked := some false, assignments := none, messages := none }

/-- The canonical form of ashaDoc. -/
def ashaStudent : Student :=
  { name := "Asha", regNo := "CS001", attendedClasses := 0, totalClasses := 10
    pendingAssignments := 0, isBlocked := false, assignments := [], messages := [] }

/-- ashaStudent with the block flag flipped by the admin. -/
def blockedAsha : Student :=
  { ashaStudent with isBlocked := true }

/-- A point-read table holding exactly the Asha document under key CS001. -/
def ashaLookup : String → Option RawStudentDoc :=
  fun r => if r = "CS001" then some ashaDoc else none

/-- A stored, blocked student document named Bina under key CS002. -/
def blockedDoc : RawStudentDoc :=
  { name := some "Bina", regNo := some "CS002", attendedClasses := some 4
    totalClasses := some 10, attendance := none, pendingAssignments := some 0
    isBlocked := some true, assignments := none, messages := none }

/-- A point-read table holding exactly the blocked Bina document. -/
def blockedLookup : String → Option RawStudentDoc :=
  fun r => if r = "CS002" then some blockedDoc else none

/-- The canonical form of blockedDoc. -/
def blockedStudent : Student :=
  { name := "Bina", regNo := "CS002", attendedClasses := 4, totalClasses := 10
    pendingAssignments := 0, isBlocked := true, assignments := [], messages := [] }

/-- A file one byte over the 10 MB submission limit. -/
def bigFile : UploadFile :=
  { name := "huge.bin", size := 10 * 1024 * 1024 + 1 }

/-- A snapshot document keyed S1. -/
def snapshotDocS1 : SnapshotDoc :=
  { id := "S1"
    data := { name := some "Asha", regNo := some "S1", attendedClasses := some 2
              totalClasses := some 10, attendance := none, pendingAssignments := some 0
              isBlocked := some false, assignments := none, messages := none } }

/-- A snapshot document keyed S2. -/
def snapshotDocS2 : SnapshotDoc :=
  { id := "S2"
    data := { name := some "Bina", regNo := some "S2", attendedClasses := some 1
              totalClasses := some 10, attendance := none, pendingAssignments := some 0
              isBlocked := some false, assignments := none, messages := none } }

/-- The canonical form of snapshotDocS1. -/
def studentS1 : Student :=
  { name := "Asha", regNo := "S1", attendedClasses := 2, totalClasses := 10
    pendingAssignments := 0, isBlocked := false, assignments := [], messages := [] }

/-- The canonical form of snapshotDocS2. -/
def studentS2 : Student :=
  { name := "Bina", regNo := "S2", attendedClasses := 1, totalClasses := 10
    pendingAssignments := 0, isBlocked := false, assignments := [], messages := [] }

/-! Helper lemmas. -/

/-- Characterization of a successful normalization: every field of the
produced Student in terms of the raw document. -/
theorem normalizeStudentData_ok {env : JsEnv} {d : RawStudentDoc} {r : String} {s : Student}
    (h : normalizeStudentData env d r = Except.ok s) :
    s.name = d.name.getD "" ∧
    s.regNo = d.regNo.getD r ∧
    s.attendedClasses = normAttendedClasses d ∧
    s.totalClasses = normTotalClasses d ∧
    s.isBlocked = d.isBlocked.getD false ∧
    (d.assignments.getD []).mapM (normalizeAssignment env) = Except.ok s.assignments ∧
    (d.messages.getD []).mapM (normalizeMessage env) = Except.ok s.messages ∧
    s.pendingAssignments =
      (match d.pendingAssignments with
       | some n => n
       | none => getPendingAssignmentsCount s.assignments 0) := by
  unfold normalizeStudentData at h
  cases hA : (d.assignments.getD []).mapM (normalizeAssignment env) with
  | error e => rw [hA] at h; exact absurd h (by simp)
  | ok assignments =>
    rw [hA] at h
    cases hM : (d.messages.getD []).mapM (normalizeMessage env) with
    | error e => rw [hM] at h; exact absurd h (by simp)
    | ok messages =>
      rw [hM] at h
      simp only [Except.ok.injEq] at h
      subst h
      refine ⟨rfl, rfl, rfl, rfl, rfl, ?_, ?_, rfl⟩
      · exact rfl
      · exact rfl

/-- The defaulted class count is always positive. -/
theorem normTotalClasses_pos (d : RawStudentDoc) : 0 < normTotalClasses d := by
  unfold normTotalClasses TOTAL_CLASSES
  cases d.totalClasses with
  | none => norm_num
  | some t =>
    by_cases ht : 0 < t
    · simp only [if_pos ht]
      exact ht
    · simp only [if_neg ht]
      norm_num

/-- Two students that agree on regNo and are unequal are told apart by the
hasChanges observable-field comparison. -/
theorem hasChanges_true_of_ne {u s : Student} (hr : u.regNo = s.regNo) (hne : u ≠ s) :
    hasChanges u s = true := by
  cases h : hasChanges u s with
  | true => rfl
  | false =>
    exfalso
    apply hne
    simp only [hasChanges, Bool.or_eq_false_iff, decide_eq_false_iff_not, not_not] at h
    obtain ⟨⟨⟨⟨⟨⟨h1, h2⟩, h3⟩, h4⟩, h5⟩, h6⟩, h7⟩ := h
    cases u
    cases s
    simp_all

/-- The mergeSort comparator built from lexCompare holds exactly on ordered
pairs of strings. -/
theorem lexCompare_ne_gt {a b : String} :
    ((lexCompare a b != Ordering.gt) = true) ↔ a ≤ b := by
  unfold lexCompare
  split
  next h => exact iff_of_true rfl (le_of_lt h)
  next h =>
    split
    next heq =>
      subst heq
      exact iff_of_true rfl (le_refl a)
    next hne =>
      have hba : b < a := by
        rcases lt_trichotomy a b with h1 | h1 | h1
        · exact absurd h1 h
        · exact absurd h1 hne
        · exact h1
      exact iff_of_false (by decide) (not_le.mpr hba)

/-! Claim theorems. -/

/-- Claim C1, counterexample: the claim says the canonical pendingAssignments
is the count of non-submitted entries whenever the normalized assignments
list is non-empty; but on a document carrying both a numeric stored counter 5
and a one-element list with exactly one pending entry, normalization keeps
the stored counter 5 instead of the derived count 1. -/
theorem normalizeStudentData_pending_claim_cex :
    normalizeStudentData demoEnv legacyCounterDoc "CS001" = Except.ok legacyCounterStudent ∧
    legacyCounterStudent.assignments ≠ [] ∧
    getPendingAssignmentsCount legacyCounterStudent.assignments 0 = 1 ∧
    legacyCounterStudent.pendingAssignments = 5 ∧
    legacyCounterStudent.pendingAssignments ≠
      getPendingAssignmentsCount legacyCounterStudent.assignments 0 := by
  refine ⟨by with_unfolding_all rfl, by simp [legacyCounterStudent, legacyCounterDoc], ?_, rfl, ?_⟩
  · with_unfolding_all rfl
  · with_unfolding_all decide

/-- Claim C1, amended: normalizeStudentData keeps the stored legacy counter
whenever it is present as a number; only when it is absent is the counter
recomputed with getPendingAssignmentsCount over the normalized list with
fallback 0, which is the count of non-submitted entries when the list is
non-empty. -/
theorem normalizeStudentData_pendingAssignments_priority
    (env : JsEnv) (d : RawStudentDoc) (r : String) (s : Student)
    (h : normalizeStudentData env d r = Except.ok s) :
    (∀ n, d.pendingAssignments = some n → s.pendingAssignments = n) ∧
    (d.pendingAssignments = none →
      s.pendingAssignments = getPendingAssignmentsCount s.assignments 0) ∧
    (d.pendingAssignments = none → s.assignments ≠ [] →
      s.pendingAssignments =
        ((s.assignments.filter fun a => decide (a.status ≠ AStatus.submitted)).length : Rat)) := by
  obtain ⟨-, -, -, -, -, -, -, hp⟩ := normalizeStudentData_ok h
  refine ⟨?_, ?_, ?_⟩
  · intro n hn
    rw [hp, hn]
  · intro hn
    rw [hp, hn]
  · intro hn hne
    rw [hp, hn]
    show getPendingAssignmentsCount s.assignments 0 = _
    unfold getPendingAssignmentsCount
    rw [if_neg (by simpa [List.length_eq_zero] using hne)]

/-- Witness for the amended C1: on a document with no stored counter and one
pending assignment, the canonical counter is the derived count 1. -/
theorem normalizeStudentData_pendingAssignments_priority_witness :
    derivedCountStudent.pendingAssignments =
      getPendingAssignmentsCount derivedCountStudent.assignments 0 ∧
    derivedCountStudent.pendingAssignments = 1 :=
  ⟨(normalizeStudentData_pendingAssignments_priority demoEnv derivedCountDoc "CS001"
      derivedCountStudent (by with_unfolding_all rfl)).2.1 rfl,
   rfl⟩

/-- Claim C2 (code bug in the source): normalizeAssignment is documented as
total, with an unparseable dueDate falling back to the current time; but on a
non-empty dueDate string that does not parse, the source calls toISOString on
an Invalid Date, which raises a RangeError instead of falling back. -/
theorem normalizeAssignment_invalid_dueDate_raises :
    demoEnv.parseDate "not-a-date" = none ∧
    normalizeAssignment demoEnv invalidDueDateAssignment = Except.error JsError.rangeError :=
  ⟨rfl, rfl⟩

/-- Claim C3: attendedClasses is computed with the priority order explicit
new field, else round(legacyPercentage / 100 * totalClasses) whenever a
legacy percentage is present — with totalClasses the already-defaulted count,
whatever the stored totalClasses field held — else 0, clamped into the range
from 0 to totalClasses; in particular a document missing the new field but
holding percentage p and positive totalClasses t normalizes to
round(p / 100 * t) clamped into that range. -/
theorem normalizeStudentData_attendedClasses_priority
    (env : JsEnv) (d : RawStudentDoc) (r : String) (s : Student)
    (h : normalizeStudentData env d r = Except.ok s) :
    (∀ a, d.attendedClasses = some a →
      s.attendedClasses = min (max a 0) s.totalClasses) ∧
    (∀ p, d.attendedClasses = none → d.attendance = some p →
      s.attendedClasses =
        min (max ((jsRound (p / 100 * s.totalClasses) : Int) : Rat) 0) s.totalClasses) ∧
    (∀ p t, d.attendedClasses = none → d.attendance = some p →
      d.totalClasses = some t → 0 < t →
      s.totalClasses = t ∧
      s.attendedClasses = min (max ((jsRound (p / 100 * t) : Int) : Rat) 0) t) ∧
    (d.attendedClasses = none → d.attendance = none → s.attendedClasses = 0) := by
  obtain ⟨-, -, ha, ht, -, -, -, -⟩ := normalizeStudentData_ok h
  refine ⟨?_, ?_, ?_, ?_⟩
  · intro a haa
    rw [ha, ht]
    unfold normAttendedClasses
    rw [haa]
    simp only [Option.getD_some]
  · intro p h1 h2
    rw [ha, ht]
    simp [normAttendedClasses, h1, h2]
  · intro p t h1 h2 h3 h4
    have htc : normTotalClasses d = t := by
      simp [normTotalClasses, h3, h4]
    constructor
    · rw [ht, htc]
    · rw [ha]
      simp [normAttendedClasses, h1, h2, htc]
  · intro h1 h2
    rw [ha]
    simp only [normAttendedClasses, h1, h2, Option.map_none', Option.getD_none, max_self]
    exact min_eq_left (normTotalClasses_pos d).le

/-- Witness for C3: a document with legacy percentage 85 and totalClasses 10
normalizes to attendedClasses 9 = round(85 / 100 * 10), and a legacy document
with percentage 85 and no stored totalClasses gets the percentage applied to
the defaulted count 10, again yielding 9. -/
theorem normalizeStudentData_attendedClasses_priority_witness :
    legacyPercentStudent.totalClasses = 10 ∧
    legacyPercentStudent.attendedClasses =
      min (max ((jsRound ((85 : Rat) / 100 * 10) : Int) : Rat) 0) 10 ∧
    legacyPercentStudent.attendedClasses = 9 ∧
    legacyOnlyStudent.attendedClasses =
      min (max ((jsRound ((85 : Rat) / 100 * legacyOnlyStudent.totalClasses) : Int) : Rat) 0)
        legacyOnlyStudent.totalClasses ∧
    legacyOnlyStudent.totalClasses = 10 ∧
    legacyOnlyStudent.attendedClasses = 9 :=
  ⟨((normalizeStudentData_attendedClasses_priority demoEnv legacyPercentDoc "CS003"
      legacyPercentStudent (by with_unfolding_all rfl)).2.2.1 85 10 rfl rfl rfl
      (by norm_num)).1,
   ((normalizeStudentData_attendedClasses_priority demoEnv legacyPercentDoc "CS003"
      legacyPercentStudent (by with_unfolding_all rfl)).2.2.1 85 10 rfl rfl rfl
      (by norm_num)).2,
   rfl,
   (normalizeStudentData_attendedClasses_priority demoEnv legacyOnlyDoc "CS004"
      legacyOnlyStudent (by with_unfolding_all rfl)).2.1 85 rfl rfl,
   rfl,
   rfl⟩

/-- Claim C4: however malformed the input document, the normalized Student
satisfies 0 ≤ attendedClasses ≤ totalClasses with totalClasses positive, and
totalClasses falls back to the constant 10 when absent or non-positive. -/
theorem normalizeStudentData_attendance_invariant
    (env : JsEnv) (d : RawStudentDoc) (r : String) (s : Student)
    (h : normalizeStudentData env d r = Except.ok s) :
    0 ≤ s.attendedClasses ∧ s.attendedClasses ≤ s.totalClasses ∧ 0 < s.totalClasses ∧
    ((d.totalClasses = none ∨ ∃ t, d.totalClasses = some t ∧ t ≤ 0) →
      s.totalClasses = 10) := by
  obtain ⟨-, -, ha, ht, -, -, -, -⟩ := normalizeStudentData_ok h
  rw [ha, ht]
  refine ⟨?_, ?_, normTotalClasses_pos d, ?_⟩
  · exact le_min (le_max_right _ _) (normTotalClasses_pos d).le
  · exact min_le_right _ _
  · rintro (hcase | ⟨t, hcase, htle⟩)
    · simp [normTotalClasses, hcase, TOTAL_CLASSES]
    · simp [normTotalClasses, hcase, TOTAL_CLASSES, not_lt.mpr htle]

/-- Witness for C4: a document with attendedClasses 99 and totalClasses -5
normalizes into the invariant range with totalClasses defaulted to 10. -/
theorem normalizeStudentData_attendance_invariant_witness :
    0 ≤ malformedStudent.attendedClasses ∧
    malformedStudent.attendedClasses ≤ malformedStudent.totalClasses ∧
    0 < malformedStudent.totalClasses ∧
    malformedStudent.totalClasses = 10 := by
  have h := normalizeStudentData_attendance_invariant demoEnv malformedDoc "CS000"
    malformedStudent (by with_unfolding_all rfl)
  exact ⟨h.1, h.2.1, h.2.2.1, h.2.2.2 (Or.inr ⟨-5, rfl, by norm_num⟩)⟩

/-- Claim C5: after each roster publication, both held selections keyed by
regNo (the admin's selected-student modal and the logged-in student session)
are reconciled against the new roster: a vanished regNo clears the selection
(modal closed, session logged out and routed to the student login page), and
a present record that differs structurally replaces the held copy. -/
theorem selection_reconciliation_spec
    (students : List Student) (sel cu : Student) (p : Page) :
    (students.find? (fun s => decide (s.regNo = sel.regNo)) = none →
      reconcileSelectedStudent students (some sel) = none) ∧
    (∀ u, students.find? (fun s => decide (s.regNo = sel.regNo)) = some u → u ≠ sel →
      reconcileSelectedStudent students (some sel) = some u) ∧
    (students.find? (fun s => decide (s.regNo = cu.regNo)) = none →
      reconcileCurrentUser students (some (User.student cu)) p = (none, Page.studentLogin)) ∧
    (∀ u, students.find? (fun s => decide (s.regNo = cu.regNo)) = some u → u ≠ cu →
      reconcileCurrentUser students (some (User.student cu)) p = (some (User.student u), p)) := by
  refine ⟨?_, ?_, ?_, ?_⟩
  · intro hfind
    simp [reconcileSelectedStudent, hfind]
  · intro u hfind hne
    have hfact := List.find?_some hfind
    have hr : u.regNo = sel.regNo := of_decide_eq_true hfact
    simp [reconcileSelectedStudent, hfind, hasChanges_true_of_ne hr hne]
  · intro hfind
    simp [reconcileCurrentUser, hfind]
  · intro u hfind hne
    have hfact := List.find?_some hfind
    have hr : u.regNo = cu.regNo := of_decide_eq_true hfact
    simp [reconcileCurrentUser, hfind, hasChanges_true_of_ne hr hne]

/-- Witness for C5: a selection holding the unblocked Asha record is replaced
when the roster carries the blocked copy, and an Asha session is logged out
when the roster no longer holds her record. -/
theorem selection_reconciliation_spec_witness :
    reconcileSelectedStudent [blockedAsha] (some ashaStudent) = some blockedAsha ∧
    reconcileCurrentUser [] (some (User.student ashaStudent)) Page.studentDashboard =
      (none, Page.studentLogin) := by
  constructor
  · exact (selection_reconciliation_spec [blockedAsha] ashaStudent ashaStudent
      Page.studentDashboard).2.1 blockedAsha (by with_unfolding_all rfl)
      (by with_unfolding_all decide)
  · exact (selection_reconciliation_spec [] ashaStudent ashaStudent
      Page.studentDashboard).2.2.1 rfl

/-- Dissection of a write issued by an attendance save: it comes from a
marked entry whose student was found below capacity, and carries the clamped
increment. -/
theorem attendanceWrites_mem {selections : List (String × Bool)} {students : List Student}
    {r : String} {v : Rat}
    (h : (r, v) ∈ attendanceWrites selections students) :
    (r, true) ∈ selections ∧
    ∃ student, students.find? (fun s => decide (s.regNo = r)) = some student ∧
      student.attendedClasses < student.totalClasses ∧
      v = min (student.attendedClasses + 1) student.totalClasses := by
  obtain ⟨⟨r', b⟩, hmem, hf⟩ := List.mem_filterMap.mp h
  cases b with
  | false => simp [attendanceWrites] at hf
  | true =>
    cases hfind : students.find? (fun s => decide (s.regNo = r')) with
    | none => simp [hfind] at hf
    | some st =>
      by_cases hcap : st.totalClasses ≤ st.attendedClasses
      · simp [hfind, hcap] at hf
      · simp [hfind, hcap] at hf
        obtain ⟨hr, hv⟩ := hf
        subst hr
        exact ⟨hmem, st, hfind, not_le.mp hcap, hv.symm⟩

/-- Construction of a write: a marked student found below capacity gets the
clamped increment written. -/
theorem attendanceWrites_mem_of {selections : List (String × Bool)} {students : List Student}
    {r : String} {student : Student}
    (hm : (r, true) ∈ selections)
    (hfind : students.find? (fun s => decide (s.regNo = r)) = some student)
    (hlt : student.attendedClasses < student.totalClasses) :
    (r, min (student.attendedClasses + 1) student.totalClasses) ∈
      attendanceWrites selections students :=
  List.mem_filterMap.mpr ⟨(r, true), hm, by simp [hfind, not_le.mpr hlt]⟩

/-- Claim C7: an attendance save writes min(attendedClasses + 1, totalClasses)
for every marked student still below capacity, issues no write for a marked
student at or above capacity, touches no unmarked student, and never issues a
write above the student's totalClasses. -/
theorem handleSubmitAttendance_writes_spec
    (selections : List (String × Bool)) (students : List Student)
    (regNo : String) (student : Student)
    (hfind : students.find? (fun s => decide (s.regNo = regNo)) = some student) :
    ((regNo, true) ∈ selections → student.attendedClasses < student.totalClasses →
      (regNo, min (student.attendedClasses + 1) student.totalClasses) ∈
        attendanceWrites selections students) ∧
    (student.totalClasses ≤ student.attendedClasses →
      ∀ v, (regNo, v) ∉ attendanceWrites selections students) ∧
    ((regNo, true) ∉ selections →
      ∀ v, (regNo, v) ∉ attendanceWrites selections students) ∧
    (∀ v, (regNo, v) ∈ attendanceWrites selections students → v ≤ student.totalClasses) := by
  refine ⟨?_, ?_, ?_, ?_⟩
  · intro hm hlt
    exact attendanceWrites_mem_of hm hfind hlt
  · intro hcap v hmem
    obtain ⟨-, st, hfind', hlt, -⟩ := attendanceWrites_mem hmem
    rw [hfind] at hfind'
    injection hfind' with h'
    subst h'
    exact absurd hlt (not_lt.mpr hcap)
  · intro hnot v hmem
    obtain ⟨hm, -⟩ := attendanceWrites_mem hmem
    exact hnot hm
  · intro v hmem
    obtain ⟨-, st, hfind', -, hv⟩ := attendanceWrites_mem hmem
    rw [hfind] at hfind'
    injection hfind' with h'
    subst h'
    rw [hv]
    exact min_le_right _ _

/-- Witness for C7: saving with S1 marked and S2 unmarked writes exactly the
clamped increment for S1. -/
theorem handleSubmitAttendance_writes_spec_witness :
    ("S1", min (studentS1.attendedClasses + 1) studentS1.totalClasses) ∈
      attendanceWrites [("S1", true), ("S2", false)] [studentS1, studentS2] ∧
    attendanceWrites [("S1", true), ("S2", false)] [studentS1, studentS2] = [("S1", 3)] := by
  constructor
  · exact (handleSubmitAttendance_writes_spec [("S1", true), ("S2", false)]
      [studentS1, studentS2] "S1" studentS1 (by with_unfolding_all rfl)).1
      (by decide) (by with_unfolding_all decide)
  · with_unfolding_all rfl

/-- Claim C8: when the stored document for the trimmed regNo normalizes to a
blocked record, login returns the blocked-account error string as a value,
creates no session, changes no page and writes no document, regardless of
whether the supplied name matches (the blocked check precedes the name
check). -/
theorem handleStudentLogin_blocked_before_name
    (env : JsEnv) (lookup : String → Option RawStudentDoc) (name regNo : String)
    (raw : RawStudentDoc) (s : Student)
    (hname : jsTrim name ≠ "") (hreg : jsTrim regNo ≠ "")
    (hlookup : lookup (jsTrim regNo) = some raw)
    (hnorm : normalizeStudentData env raw (jsTrim regNo) = Except.ok s)
    (hblocked : s.isBlocked = true) :
    handleStudentLogin env lookup name regNo =
      { result := some "Your account is blocked. Please contact administration."
        sessionUser := none, nextPage := none, createdDoc := none } := by
  simp [handleStudentLogin, hname, hreg, hlookup, hnorm, hblocked]

/-- Witness for C8: the blocked Bina logs in with her exact stored name and
still receives the blocked-account error with no session or page change. -/
theorem handleStudentLogin_blocked_before_name_witness :
    handleStudentLogin demoEnv blockedLookup "Bina" "CS002" =
      { result := some "Your account is blocked. Please contact administration."
        sessionUser := none, nextPage := none, createdDoc := none } :=
  handleStudentLogin_blocked_before_name demoEnv blockedLookup "Bina" "CS002" blockedDoc
    blockedStudent (by decide) (by decide) (by with_unfolding_all rfl)
    (by with_unfolding_all rfl) rfl

/-- Claim C10, counterexample: the supplied name with surrounding whitespace
differs from the stored name Asha by more than case (their lowercase forms
differ because of the whitespace), yet login succeeds with a session created,
because the supplied name is trimmed before the case-insensitive comparison;
the claim says such a name is rejected with the name-mismatch error. -/
theorem handleStudentLogin_name_claim_cex :
    jsToLower "  asha  " ≠ jsToLower "Asha" ∧
    (handleStudentLogin demoEnv ashaLookup "  asha  " "CS001").result = none ∧
    (handleStudentLogin demoEnv ashaLookup "  asha  " "CS001").sessionUser =
      some (User.student ashaStudent) := by
  refine ⟨by decide, ?_, ?_⟩ <;> with_unfolding_all rfl

/-- Claim C10, amended: for an existing unblocked student, login with the
exact (trimmed) regNo succeeds exactly when the lower-cased trimmed supplied
name equals the lower-cased stored name, and otherwise returns the
name-mismatch error with no session created. -/
theorem handleStudentLogin_name_match
    (env : JsEnv) (lookup : String → Option RawStudentDoc) (name regNo : String)
    (raw : RawStudentDoc) (s : Student)
    (hname : jsTrim name ≠ "") (hreg : jsTrim regNo ≠ "")
    (hlookup : lookup (jsTrim regNo) = some raw)
    (hnorm : normalizeStudentData env raw (jsTrim regNo) = Except.ok s)
    (hunblocked : s.isBlocked = false) :
    (jsToLower (jsTrim name) = jsToLower s.name →
      handleStudentLogin env lookup name regNo =
        { result := none, sessionUser := some (User.student s)
          nextPage := some Page.studentDashboard, createdDoc := none }) ∧
    (jsToLower (jsTrim name) ≠ jsToLower s.name →
      handleStudentLogin env lookup name regNo =
        { result := some "Registration number found, but name does not match."
          sessionUser := none, nextPage := none, createdDoc := none }) := by
  constructor
  · intro hmatch
    simp [handleStudentLogin, hname, hreg, hlookup, hnorm, hunblocked, hmatch.symm]
  · intro hmm
    simp [handleStudentLogin, hname, hreg, hlookup, hnorm, hunblocked, Ne.symm hmm]

/-- Witness for the amended C10: ASHA, an all-capitals case variant of the
stored trimmed name Asha, logs in successfully with the exact regNo. -/
theorem handleStudentLogin_name_match_witness :
    handleStudentLogin demoEnv ashaLookup "ASHA" "CS001" =
      { result := none, sessionUser := some (User.student ashaStudent)
        nextPage := some Page.studentDashboard, createdDoc := none } :=
  (handleStudentLogin_name_match demoEnv ashaLookup "ASHA" "CS001" ashaDoc ashaStudent
    (by decide) (by decide) (by with_unfolding_all rfl) (by with_unfolding_all rfl)
    rfl).1 (by decide)

/-- Claim C9: an upload whose chosen file exceeds 10 * 1024 * 1024 bytes
performs no object-store upload and issues no student-document update
whatever the other arguments are, and on the owner path it stops with the
file-too-large error message. -/
theorem assignment_upload_size_guard
    (env : JsEnv) (modal : Option (Student × Assignment)) (f : UploadFile)
    (cu : Option User) (url : String) (s : Student) (a : Assignment)
    (hsize : 10 * 1024 * 1024 < f.size) :
    ((handleSubmitAssignmentUpload env modal (some f) cu url).storageUploaded = false ∧
     (handleSubmitAssignmentUpload env modal (some f) cu url).dbUpdate = none) ∧
    (modal = some (s, a) → isOwnerStudent cu s = true →
      handleSubmitAssignmentUpload env modal (some f) cu url =
        { uploadError := some "File is too large. Please keep submissions under 10 MB."
          uploadSuccess := none, storageUploaded := false, dbUpdate := none }) := by
  constructor
  · cases modal with
    | none => exact ⟨rfl, rfl⟩
    | some pair =>
      obtain ⟨st, asg⟩ := pair
      by_cases howner : isOwnerStudent cu st = true
      · simp [handleSubmitAssignmentUpload, howner, hsize]
      · simp [handleSubmitAssignmentUpload, howner]
  · intro hmodal howner
    subst hmodal
    simp [handleSubmitAssignmentUpload, howner, hsize]

/-- Witness for C9: the owner student uploading a file one byte over the
limit gets the file-too-large error and neither storage nor database effect. -/
theorem assignment_upload_size_guard_witness :
    handleSubmitAssignmentUpload demoEnv (some (ashaStudent, essayAssignment)) (some bigFile)
      (some (User.student ashaStudent)) "https://example.invalid/blob" =
      { uploadError := some "File is too large. Please keep submissions under 10 MB."
        uploadSuccess := none, storageUploaded := false, dbUpdate := none } :=
  (assignment_upload_size_guard demoEnv (some (ashaStudent, essayAssignment)) bigFile
    (some (User.student ashaStudent)) "https://example.invalid/blob" ashaStudent
    essayAssignment (by decide)).2 rfl (by decide)

/-- Claim C6: with localeCompare behaving as the case-sensitive lexicographic
comparison, every successfully processed snapshot publishes, in one
replacement, exactly the documents mapped through normalizeStudentData and
sorted ascending by regNo: the published roster is a permutation of the
normalized documents, is pairwise ordered by regNo, and is a pure function of
the snapshot alone. -/
theorem publishRoster_spec
    (env : JsEnv) (docs : List SnapshotDoc) (roster normalized : List Student)
    (hlc : env.localeCompare = lexCompare)
    (hmap : docs.mapM (fun d => normalizeStudentData env d.data d.id) = Except.ok normalized)
    (hpub : publishRoster env docs = Except.ok roster) :
    roster.Perm normalized ∧
    roster.Pairwise (fun a b => a.regNo ≤ b.regNo) ∧
    roster = normalized.mergeSort fun a b => lexCompare a.regNo b.regNo != Ordering.gt := by
  have hr : roster = normalized.mergeSort fun a b => lexCompare a.regNo b.regNo != Ordering.gt := by
    unfold publishRoster at hpub
    rw [hmap, hlc] at hpub
    simpa using hpub.symm
  subst hr
  have htrans : ∀ a b c : Student,
      (lexCompare a.regNo b.regNo != Ordering.gt) = true →
      (lexCompare b.regNo c.regNo != Ordering.gt) = true →
      (lexCompare a.regNo c.regNo != Ordering.gt) = true := fun a b c hab hbc =>
    lexCompare_ne_gt.mpr (le_trans (lexCompare_ne_gt.mp hab) (lexCompare_ne_gt.mp hbc))
  have htotal : ∀ a b : Student,
      ((lexCompare a.regNo b.regNo != Ordering.gt) ||
        (lexCompare b.regNo a.regNo != Ordering.gt)) = true := by
    intro a b
    rcases le_total a.regNo b.regNo with h | h
    · simp [lexCompare_ne_gt.mpr h]
    · simp [lexCompare_ne_gt.mpr h]
  refine ⟨List.mergeSort_perm normalized _, ?_, rfl⟩
  exact List.Pairwise.imp (fun hab => lexCompare_ne_gt.mp hab)
    (List.sorted_mergeSort htrans htotal normalized)

/-- Witness for C6: a snapshot delivering S2 before S1 publishes the
normalized records sorted as S1, S2. -/
theorem publishRoster_spec_witness :
    ([studentS1, studentS2] : List Student).Perm [studentS2, studentS1] ∧
    ([studentS1, studentS2] : List Student).Pairwise (fun a b => a.regNo ≤ b.regNo) ∧
    ([studentS1, studentS2] : List Student) =
      [studentS2, studentS1].mergeSort fun a b => lexCompare a.regNo b.regNo != Ordering.gt :=
  publishRoster_spec demoEnv [snapshotDocS2, snapshotDocS1] [studentS1, studentS2]
    [studentS2, studentS1] rfl (by with_unfolding_all rfl) (by with_unfolding_all rfl)

end SchoolPortal
